import Mathlib

/-!
Shallow embedding of the forecasting pipeline in `src/main.py` (a Streamlit
page that loads a CPIH inflation CSV and a GDP growth CSV, aligns them by
year with an inner join, fits an ARIMA model to GDP growth and a SARIMAX
model to CPIH, and renders a historical chart, a forecast chart and a
forecast table, with a single catch-all error display).

Modelling conventions:
 - A CSV cell is modelled by how Python/pandas can parse its text:
   `Cell.intVal n` stands for a cell whose text is an integer numeral
   (accepted by `int(...)` and by `pd.to_numeric`), `Cell.floatVal q` for a
   cell whose text is numeric but not an integer numeral (accepted by
   `pd.to_numeric` but rejected by `int(...)`, e.g. "2020.5"), and
   `Cell.text s` for a cell that `pd.to_numeric(..., errors=coerce)` turns
   into NaN.  This matches the object-dtype (string column) semantics of
   the two loaders, which is the general case for uploaded CSV text.
 - Machine floats are modelled by `Rat`; the pipeline only moves the values
   around (no arithmetic happens on them inside `main.py`).
 - The two statsmodels fitting calls (`ARIMA(...).fit().forecast` and
   `SARIMAX(...).fit().get_forecast`) are third-party numerical code; they
   are modelled as explicit function parameters of type `GdpFitter` and
   `CpihFitter` that may fail (`Except`), so every theorem quantifies over
   their behaviour unless it pins them to a concrete instance.
 - Streamlit rendering calls are modelled by the ordered list of `Output`
   events the run emits; `st.error` in the catch-all handler is the
   `Output.errorMsg` event.  Input widgets (slider / number inputs, lines
   38-48) only produce the `Config` values and are not output events.
-/

deriving instance DecidableEq for Except

namespace UKInflation

/-- A CSV cell, classified by how its text parses: an integer numeral, a
numeric-but-not-integer numeral, or non-numeric text. -/
inductive Cell where
  | intVal (n : Int)
  | floatVal (q : Rat)
  | text (s : String)
deriving DecidableEq, Repr

/-- A two-column CSV row, as produced by `pd.read_csv` plus the
`df.columns = [year, value]` renaming (lines 18 and 26). -/
abbrev Row := Cell × Cell

/-- One source table after load: year index paired with the numeric value
column (`df_cpih` resp. `df_gdp` after lines 22 / 29). -/
abbrev SourceTable := List (Int × Rat)

/-- The aligned table `df` of line 32: year, CPIH value, GDP growth value. -/
abbrev AlignedTable := List (Int × Rat × Rat)

/-- `pd.to_numeric(cell, errors=coerce)`: numeric cells coerce to their
value, anything else becomes NaN (`none`). -/
def toNumeric : Cell → Option Rat
  | .intVal n => some (n : Rat)
  | .floatVal q => some q
  | .text _ => none

/-- Python `int(...)` on a cell of an object-dtype column: succeeds exactly
on integer numerals. -/
def cellInt : Cell → Option Int
  | .intVal n => some n
  | .floatVal _ => none
  | .text _ => none

/-- `Series.astype(int)` on an object-dtype column (lines 20 and 27):
converts every cell with Python `int(...)`; the first cell that is not an
integer numeral raises ValueError, which aborts the whole load. -/
def astypeInt : List Cell → Except String (List Int)
  | [] => .ok []
  | Cell.intVal n :: cs =>
    match astypeInt cs with
    | .error e => .error e
    | .ok ns => .ok (n :: ns)
  | Cell.floatVal _ :: _ => .error "invalid literal for int"
  | Cell.text _ :: _ => .error "invalid literal for int"

/-- Insert one (year, value) row into a list sorted by year. -/
def insertByYear (x : Int × Rat) : SourceTable → SourceTable
  | [] => [x]
  | y :: ys => if x.1 ≤ y.1 then x :: y :: ys else y :: insertByYear x ys

/-- `sort_index()` (lines 22 and 29): sort the rows by their year index. -/
def sortByYear : SourceTable → SourceTable
  | [] => []
  | x :: xs => insertByYear x (sortByYear xs)

/-- `dropna().set_index(Year).sort_index()` (end of lines 22 and 29): pair
the integer years with the coerced values, drop every row whose value
failed numeric coercion (NaN), and sort by year. -/
def buildTable (years : List Int) (vals : List (Option Rat)) : SourceTable :=
  sortByYear ((years.zip vals).filterMap (fun yv => yv.2.map (fun v => (yv.1, v))))

/-- The CPIH data rows seen by the loader: `pd.read_csv(cpih_file, skiprows=6)`
skips 6 lines and consumes the next line as the header row (line 17), and
line 19 keeps exactly the rows whose Year cell coerces to a number under
`pd.to_numeric(..., errors=coerce)`. -/
def cpihData (lines : List Row) : List Row :=
  (lines.drop 7).filter (fun r => (toNumeric r.1).isSome)

/-- The CPIH loader, lines 17-22 of `main.py`: skip the header lines, keep
the numeric-year rows, convert the Year column with `astype(int)`, coerce
the CPIH column with `pd.to_numeric(..., errors=coerce)`, then
`dropna().set_index(Year).sort_index()`. -/
def loadCPIH (lines : List Row) : Except String SourceTable :=
  match astypeInt ((cpihData lines).map Prod.fst) with
  | .error e => .error e
  | .ok years => .ok (buildTable years ((cpihData lines).map (fun r => toNumeric r.2)))

/-- The GDP data rows seen by the loader: `pd.read_csv(gdp_file)` (line 25)
consumes the first line as the header row; no filtering is applied. -/
def gdpData (lines : List Row) : List Row := lines.drop 1

/-- The GDP loader, lines 25-29 of `main.py`: convert the Year column with
`astype(int)` directly -- there is no numeric-year filter here, unlike the
CPIH loader -- coerce the growth column, then
`dropna().set_index(Year).sort_index()`. -/
def loadGDP (lines : List Row) : Except String SourceTable :=
  match astypeInt ((gdpData lines).map Prod.fst) with
  | .error e => .error e
  | .ok years => .ok (buildTable years ((gdpData lines).map (fun r => toNumeric r.2)))

/-- `df = df_cpih.join(df_gdp, how=inner)` (line 32): every left row is
matched with every right row that has the same year; years present in only
one table are excluded. -/
def innerJoin : SourceTable → SourceTable → AlignedTable
  | [], _ => []
  | r :: rest, t2 =>
    (t2.filter (fun s => decide (s.1 = r.1))).map (fun s => (r.1, r.2, s.2))
      ++ innerJoin rest t2

/-- The user-supplied configuration: forecast horizon (slider, line 38) and
the two (p, d, q) order triples (number inputs, lines 41-48). -/
structure Config where
  nYears : Nat
  p : Nat
  d : Nat
  q : Nat
  pg : Nat
  dg : Nat
  qg : Nat
deriving DecidableEq, Repr

/-- The statsmodels call `ARIMA(series, order).fit().forecast(steps=n)`
(lines 51-53), abstracted as a function of the GDP series, the order triple
and the horizon; it may fail (convergence / invalid orders). -/
abbrev GdpFitter := List Rat → Nat × Nat × Nat → Nat → Except String (List Rat)

/-- The statsmodels call
`SARIMAX(endog, exog, order, enforce_stationarity=False,
enforce_invertibility=False).fit(disp=False)` followed by
`get_forecast(steps=n, exog=future).{predicted_mean, conf_int()}`
(lines 57-62), abstracted as a function of the CPIH series, the historical
exogenous series, the order triple, the horizon and the future exogenous
values; on success it returns (point forecasts, lower bounds, upper
bounds). -/
abbrev CpihFitter :=
  List Rat → List Rat → Nat × Nat × Nat → Nat → List Rat →
    Except String (List Rat × List Rat × List Rat)

/-- Line 63: `forecast_years = list(range(df.index[-1] + 1, df.index[-1] + 1 + n_years))`. -/
def forecastYears (lastYear : Int) (n : Nat) : List Int :=
  (List.range n).map (fun (i : Nat) => lastYear + 1 + (i : Int))

/-- The two spinner blocks of lines 50-63: forecast GDP growth, fit the
CPIH SARIMAX with the GDP forecast as future exogenous input, then read
`df.index[-1]` (which raises on an empty aligned table) and build the
forecast years. -/
def forecastBlock (fitG : GdpFitter) (fitC : CpihFitter) (df : AlignedTable)
    (cfg : Config) : Except String (List Int × List Rat × List Rat × List Rat) :=
  match fitG (df.map (fun r => r.2.2)) (cfg.pg, cfg.dg, cfg.qg) cfg.nYears with
  | .error e => .error e
  | .ok gdpFc =>
    match fitC (df.map (fun r => r.2.1)) (df.map (fun r => r.2.2))
        (cfg.p, cfg.d, cfg.q) cfg.nYears gdpFc with
    | .error e => .error e
    | .ok (fc, lo, hi) =>
      match (df.map Prod.fst).getLast? with
      | none => .error "index -1 is out of bounds"
      | some lastYear => .ok (forecastYears lastYear cfg.nYears, fc, lo, hi)

/-- One rendered page element of the run, in emission order:
`st.line_chart(df)` (line 35), the matplotlib forecast figure
(`st.pyplot`, lines 67-76), the forecast table (`st.dataframe`, lines
80-85) and the catch-all `st.error` (line 88). -/
inductive Output where
  | histChart (df : AlignedTable)
  | forecastChart (histYears : List Int) (histCPIH : List Rat)
      (years : List Int) (fc lo hi : List Rat)
  | forecastTable (rows : List (Int × Rat × Rat × Rat))
  | errorMsg (e : String)
deriving DecidableEq, Repr

/-- Whether an output is one of the two forecast renders (forecast chart or
forecast table). -/
def isForecastRender : Output → Bool
  | .forecastChart _ _ _ _ _ _ => true
  | .forecastTable _ => true
  | _ => false

/-- Whether an output is the error display. -/
def isErrorOutput : Output → Bool
  | .errorMsg _ => true
  | _ => false

/-- Lines 80-84: the forecast table pairs each forecast year with its point
forecast, lower bound and upper bound. -/
def mkForecastTable (years : List Int) (fc lo hi : List Rat) :
    List (Int × Rat × Rat × Rat) :=
  years.zip (fc.zip (lo.zip hi))

/-- The whole `try`/`except` body (lines 15-88): load both sources, join,
render the historical chart, run the forecast block, render the forecast
chart and table; any failure falls through to the single `st.error` call,
keeping whatever was already rendered before the failing stage. -/
def runPipeline (fitG : GdpFitter) (fitC : CpihFitter)
    (cpihLines gdpLines : List Row) (cfg : Config) : List Output :=
  match loadCPIH cpihLines with
  | .error e => [.errorMsg e]
  | .ok dfC =>
    match loadGDP gdpLines with
    | .error e => [.errorMsg e]
    | .ok dfG =>
      let df := innerJoin dfC dfG
      match forecastBlock fitG fitC df cfg with
      | .error e => [.histChart df, .errorMsg e]
      | .ok (years, fc, lo, hi) =>
        [.histChart df,
         .forecastChart (df.map Prod.fst) (df.map (fun r => r.2.1)) years fc lo hi,
         .forecastTable (mkForecastTable years fc lo hi)]

/-- The failure observed by the catch-all handler, if any: the first stage
of the run that raises (same match structure as `runPipeline`). -/
def runFailure (fitG : GdpFitter) (fitC : CpihFitter)
    (cpihLines gdpLines : List Row) (cfg : Config) : Option String :=
  match loadCPIH cpihLines with
  | .error e => some e
  | .ok dfC =>
    match loadGDP gdpLines with
    | .error e => some e
    | .ok dfG =>
      match forecastBlock fitG fitC (innerJoin dfC dfG) cfg with
      | .error e => some e
      | .ok _ => none

/-- Line 14: `if cpih_file and gdp_file:` -- the whole pipeline body only
runs when both files have been uploaded; otherwise the page emits nothing
beyond the static widgets. -/
def appOutputs (fitG : GdpFitter) (fitC : CpihFitter)
    (cpihFile gdpFile : Option (List Row)) (cfg : Config) : List Output :=
  match cpihFile, gdpFile with
  | some c, some g => runPipeline fitG fitC c g cfg
  | _, _ => []

/-- Modelled from the spec: the statsmodels 95% forecast interval returned
by `get_forecast(...).conf_int()` is the standard linear-Gaussian interval,
point forecast plus/minus the normal quantile times the forecast standard
error (the spec: "the Gaussian-derived forecast interval computed from the
fitted model's estimated forecast error variance"); the library code itself
is outside this repository. -/
def z95 : Rat := 196 / 100

/-- Modelled from the spec: a single 95% interval, (mean - z * se, mean + z * se)
with the 95% normal quantile `z95` and forecast standard error `se`. -/
def confInt95 (mean se : Rat) : Rat × Rat :=
  (mean - z95 * se, mean + z95 * se)

/-! Concrete inputs used to instantiate the theorems: a row standing for a
skipped header/metadata line, small CPIH and GDP uploads in the shape the
spec describes (integer years, numeric values, a trailing footnote row in
the CPIH file), and concrete instances of the two fitter parameters. -/

/-- A non-data line (header or metadata text). -/
def hdrRow : Row := (Cell.text "header", Cell.text "header")

/-- A CPIH upload: 7 non-data lines, rows for 2015 and 2016, and a trailing
non-numeric footnote row. -/
def cpihLinesEx : List Row :=
  List.replicate 7 hdrRow ++
    [(Cell.intVal 2015, Cell.intVal 2), (Cell.intVal 2016, Cell.intVal 3),
     (Cell.text "Source: ONS", Cell.text "")]

/-- A GDP upload: a header line then rows for 2015-2017. -/
def gdpLinesEx : List Row :=
  [hdrRow, (Cell.intVal 2015, Cell.intVal 1), (Cell.intVal 2016, Cell.intVal 2),
   (Cell.intVal 2017, Cell.intVal 2)]

/-- The table the CPIH loader produces from `cpihLinesEx`. -/
def cpihTblEx : SourceTable := [(2015, 2), (2016, 3)]

/-- The table the GDP loader produces from `gdpLinesEx`. -/
def gdpTblEx : SourceTable := [(2015, 1), (2016, 2), (2017, 2)]

/-- The aligned table for the example uploads (overlap 2015-2016). -/
def dfEx : AlignedTable := [(2015, 2, 1), (2016, 3, 2)]

/-- The default configuration of the page: horizon 5, both orders (1,1,1). -/
def cfgEx : Config := ⟨5, 1, 1, 1, 1, 1, 1⟩

/-- A configuration requesting CPIH differencing order d = 2. -/
def cfgD2 : Config := ⟨5, 1, 2, 1, 1, 1, 1⟩

/-- A GDP fitter that succeeds with a zero forecast of the right length. -/
def okFitG : GdpFitter := fun _ _ n => .ok (List.replicate n 0)

/-- A CPIH fitter that succeeds, one (forecast, lower, upper) per step. -/
def okFitC : CpihFitter := fun _ _ _ n _ =>
  .ok (List.replicate n 0, List.replicate n (-2), List.replicate n 2)

/-- A GDP fitter that raises (non-convergence). -/
def failFitG : GdpFitter := fun _ _ _ => .error "fit failed to converge"

/-- A CPIH fitter that raises, as statsmodels does when the differencing
order is too large for the series length. -/
def d2FailFitC : CpihFitter := fun _ _ _ _ _ =>
  .error "differencing order exceeds series length"

/-- A CPIH upload whose data years (2000) share nothing with
`gdpDisjointEx`. -/
def cpihDisjointEx : List Row :=
  List.replicate 7 hdrRow ++ [(Cell.intVal 2000, Cell.intVal 2)]

/-- A GDP upload whose data years (2010) share nothing with
`cpihDisjointEx`. -/
def gdpDisjointEx : List Row :=
  [hdrRow, (Cell.intVal 2010, Cell.intVal 1)]

/-- A GDP upload with a trailing footnote row whose year cell is
non-numeric. -/
def gdpBadLines : List Row :=
  [hdrRow, (Cell.intVal 2020, Cell.intVal 2), (Cell.text "footnote", Cell.text "")]

/-- The same GDP upload without the footnote row. -/
def gdpCleanLines : List Row :=
  [hdrRow, (Cell.intVal 2020, Cell.intVal 2)]

/-- A CPIH upload with a year cell that is numeric but not an integer
numeral ("2020.5" = 4041/2), next to a non-numeric footnote row. -/
def cpihBadLines : List Row :=
  List.replicate 7 hdrRow ++
    [(Cell.intVal 2019, Cell.intVal 2), (Cell.floatVal (mkRat 4041 2), Cell.intVal 3),
     (Cell.text "Source: ONS", Cell.text "")]

/-- A CPIH upload with exactly two observations (2015, 2016). -/
def cpihTwoObsEx : List Row :=
  List.replicate 7 hdrRow ++
    [(Cell.intVal 2015, Cell.intVal 2), (Cell.intVal 2016, Cell.intVal 3)]

/-! Helper lemmas about the sort, the loaders, the join and the forecast
years.  These are shared infrastructure, not claim theorems. -/

theorem insertByYear_perm (x : Int × Rat) (l : SourceTable) :
    (insertByYear x l).Perm (x :: l) := by
  induction l with
  | nil => exact List.Perm.refl _
  | cons y ys ih =>
    rw [insertByYear]
    by_cases h : x.1 ≤ y.1
    · rw [if_pos h]
    · rw [if_neg h]
      exact (ih.cons y).trans (List.Perm.swap x y ys)

theorem sortByYear_perm (l : SourceTable) : (sortByYear l).Perm l := by
  induction l with
  | nil => exact List.Perm.refl _
  | cons x xs ih =>
    exact (insertByYear_perm x (sortByYear xs)).trans (ih.cons x)

theorem insertByYear_pairwise {x : Int × Rat} {l : SourceTable}
    (h : l.Pairwise (fun a b => a.1 ≤ b.1)) :
    (insertByYear x l).Pairwise (fun a b => a.1 ≤ b.1) := by
  induction l with
  | nil => simp [insertByYear]
  | cons y ys ih =>
    rw [insertByYear]
    rcases List.pairwise_cons.mp h with ⟨hy, hys⟩
    by_cases hx : x.1 ≤ y.1
    · rw [if_pos hx]
      refine List.pairwise_cons.mpr ⟨?_, h⟩
      intro b hb
      rcases List.mem_cons.mp hb with rfl | hb
      · exact hx
      · exact le_trans hx (hy b hb)
    · rw [if_neg hx]
      refine List.pairwise_cons.mpr ⟨?_, ih hys⟩
      intro b hb
      rcases List.mem_cons.mp ((insertByYear_perm x ys).mem_iff.mp hb) with rfl | hb
      · exact le_of_not_le hx
      · exact hy b hb

theorem sortByYear_pairwise (l : SourceTable) :
    (sortByYear l).Pairwise (fun a b => a.1 ≤ b.1) := by
  induction l with
  | nil => simp [sortByYear]
  | cons x xs ih => exact insertByYear_pairwise ih

theorem buildTable_pairwise (years : List Int) (vals : List (Option Rat)) :
    (buildTable years vals).Pairwise (fun a b => a.1 ≤ b.1) :=
  sortByYear_pairwise _

theorem mem_buildTable_maps {data : List Row} {f : Row → Int} {g : Row → Option Rat}
    {y : Int} {v : Rat} :
    (y, v) ∈ buildTable (data.map f) (data.map g) ↔
      ∃ r ∈ data, f r = y ∧ g r = some v := by
  unfold buildTable
  rw [(sortByYear_perm _).mem_iff, List.zip_map' f g data, List.filterMap_map]
  simp only [List.mem_filterMap, Function.comp, Option.map_eq_some', Prod.mk.injEq]
  constructor
  · rintro ⟨r, hr, a, ha, rfl, rfl⟩
    exact ⟨r, hr, rfl, ha⟩
  · rintro ⟨r, hr, rfl, hv⟩
    exact ⟨r, hr, v, hv, rfl, rfl⟩

theorem loadCPIH_ok_pairwise {lines : List Row} {t : SourceTable}
    (h : loadCPIH lines = .ok t) : t.Pairwise (fun a b => a.1 ≤ b.1) := by
  unfold loadCPIH at h
  cases hA : astypeInt ((cpihData lines).map Prod.fst) with
  | error e => rw [hA] at h; simp at h
  | ok years =>
    rw [hA] at h
    simp only [Except.ok.injEq] at h
    rw [← h]
    exact buildTable_pairwise _ _

theorem loadGDP_ok_pairwise {lines : List Row} {t : SourceTable}
    (h : loadGDP lines = .ok t) : t.Pairwise (fun a b => a.1 ≤ b.1) := by
  unfold loadGDP at h
  cases hA : astypeInt ((gdpData lines).map Prod.fst) with
  | error e => rw [hA] at h; simp at h
  | ok years =>
    rw [hA] at h
    simp only [Except.ok.injEq] at h
    rw [← h]
    exact buildTable_pairwise _ _

theorem astypeInt_all_ok {cs : List Cell} (h : ∀ c ∈ cs, (cellInt c).isSome) :
    astypeInt cs = .ok (cs.map (fun c => (cellInt c).getD 0)) := by
  induction cs with
  | nil => rfl
  | cons c cs ih =>
    have hc := h c (List.mem_cons_self c cs)
    have ht : ∀ d ∈ cs, (cellInt d).isSome := fun d hd => h d (List.mem_cons_of_mem _ hd)
    cases c with
    | intVal n =>
      simp only [astypeInt]
      rw [ih ht]
      simp [cellInt]
    | floatVal q => simp [cellInt] at hc
    | text s => simp [cellInt] at hc

theorem astypeInt_has_error {cs : List Cell} (h : ∃ c ∈ cs, cellInt c = none) :
    ∃ e, astypeInt cs = .error e := by
  induction cs with
  | nil => simp at h
  | cons c cs ih =>
    cases c with
    | intVal n =>
      have htail : ∃ d ∈ cs, cellInt d = none := by
        rcases h with ⟨d, hd, hnone⟩
        rcases List.mem_cons.mp hd with rfl | hd2
        · simp [cellInt] at hnone
        · exact ⟨d, hd2, hnone⟩
      rcases ih htail with ⟨e, he⟩
      refine ⟨e, ?_⟩
      simp only [astypeInt]
      rw [he]
    | floatVal q => exact ⟨"invalid literal for int", rfl⟩
    | text s => exact ⟨"invalid literal for int", rfl⟩

theorem mem_innerJoin {t1 t2 : SourceTable} {y : Int} {c g : Rat} :
    (y, c, g) ∈ innerJoin t1 t2 ↔ (y, c) ∈ t1 ∧ (y, g) ∈ t2 := by
  induction t1 with
  | nil => simp [innerJoin]
  | cons r rest ih =>
    obtain ⟨a, b⟩ := r
    rw [innerJoin]
    constructor
    · intro hmem
      rcases List.mem_append.mp hmem with hL | hR
      · rcases List.mem_map.mp hL with ⟨s, hs, heq⟩
        obtain ⟨s1, s2⟩ := s
        rcases List.mem_filter.mp hs with ⟨hs2, hkey⟩
        have hkey2 : s1 = a := of_decide_eq_true hkey
        subst hkey2
        simp only [Prod.mk.injEq] at heq
        obtain ⟨e1, e2, e3⟩ := heq
        subst e1; subst e2; subst e3
        exact ⟨List.mem_cons_self _ _, hs2⟩
      · rcases ih.mp hR with ⟨h1, h2⟩
        exact ⟨List.mem_cons_of_mem _ h1, h2⟩
    · rintro ⟨h1, h2⟩
      rcases List.mem_cons.mp h1 with heq | h1r
      · simp only [Prod.mk.injEq] at heq
        obtain ⟨e1, e2⟩ := heq
        subst e1; subst e2
        apply List.mem_append.mpr
        left
        apply List.mem_map.mpr
        exact ⟨(y, g), List.mem_filter.mpr ⟨h2, by simp⟩, rfl⟩
      · exact List.mem_append.mpr (Or.inr (ih.mpr ⟨h1r, h2⟩))

theorem innerJoin_keys_mem {t1 t2 : SourceTable} {y : Int} :
    y ∈ (innerJoin t1 t2).map Prod.fst ↔
      y ∈ t1.map Prod.fst ∧ y ∈ t2.map Prod.fst := by
  constructor
  · intro h
    rcases List.mem_map.mp h with ⟨x, hx, rfl⟩
    obtain ⟨a, b, c⟩ := x
    rcases mem_innerJoin.mp hx with ⟨h1, h2⟩
    exact ⟨List.mem_map.mpr ⟨(a, b), h1, rfl⟩, List.mem_map.mpr ⟨(a, c), h2, rfl⟩⟩
  · rintro ⟨h1, h2⟩
    rcases List.mem_map.mp h1 with ⟨⟨a, b⟩, hab, rfl⟩
    rcases List.mem_map.mp h2 with ⟨⟨a2, c⟩, hac, he⟩
    have ha2 : a2 = a := he
    subst ha2
    exact List.mem_map.mpr ⟨(a2, b, c), mem_innerJoin.mpr ⟨hab, hac⟩, rfl⟩

theorem filter_key_len_le {t2 : SourceTable} {a : Int}
    (h2 : (t2.map Prod.fst).Nodup) :
    (t2.filter (fun s => decide (s.1 = a))).length ≤ 1 := by
  induction t2 with
  | nil => simp
  | cons s ss ih =>
    rw [List.map_cons] at h2
    rcases List.nodup_cons.mp h2 with ⟨hs, hss⟩
    rw [List.filter_cons]
    by_cases hk : s.1 = a
    · rw [if_pos (by simpa using hk)]
      have hnil : ss.filter (fun s2 => decide (s2.1 = a)) = [] := by
        apply List.filter_eq_nil_iff.mpr
        intro x hx hpx
        have hxa : x.1 = a := by simpa using hpx
        exact hs (List.mem_map.mpr ⟨x, hx, by rw [hxa, ← hk]⟩)
      rw [hnil]
      simp
    · rw [if_neg (by simpa using hk)]
      exact ih hss

theorem innerJoin_keys_sublist {t1 t2 : SourceTable}
    (h2 : (t2.map Prod.fst).Nodup) :
    ((innerJoin t1 t2).map Prod.fst).Sublist (t1.map Prod.fst) := by
  induction t1 with
  | nil => simp [innerJoin]
  | cons r rest ih =>
    rw [innerJoin, List.map_append, List.map_cons, List.map_map]
    cases hf : t2.filter (fun s => decide (s.1 = r.1)) with
    | nil =>
      simp only [List.map_nil, List.nil_append]
      exact ih.cons _
    | cons s ss =>
      have hlen := @filter_key_len_le t2 r.1 h2
      rw [hf] at hlen
      simp only [List.length_cons] at hlen
      have hss : ss = [] := List.eq_nil_of_length_eq_zero (by omega)
      subst hss
      simp only [List.map_cons, List.map_nil, Function.comp_apply, List.cons_append,
        List.nil_append]
      exact ih.cons₂ _

theorem chain'_range (n : Nat) :
    List.Chain' (fun i j => j = i + 1) (List.range n) := by
  induction n with
  | zero => simp
  | succ m ih =>
    rw [List.range_succ]
    apply List.chain'_append.mpr
    refine ⟨ih, List.chain'_singleton m, ?_⟩
    intro x hx y hy
    simp only [List.head?_cons, Option.mem_def, Option.some.injEq] at hy
    subst hy
    cases m with
    | zero => simp at hx
    | succ k =>
      rw [List.range_succ, List.getLast?_concat] at hx
      simp only [Option.mem_def, Option.some.injEq] at hx
      subst hx
      rfl

theorem forecastYears_length (lastY : Int) (n : Nat) :
    (forecastYears lastY n).length = n := by
  unfold forecastYears
  rw [List.length_map, List.length_range]

theorem forecastYears_chain (lastY : Int) (n : Nat) :
    List.Chain' (fun a b => b = a + 1) (forecastYears lastY n) := by
  unfold forecastYears
  rw [List.chain'_map]
  apply List.Chain'.imp ?_ (chain'_range n)
  intro a b hab
  subst hab
  push_cast
  ring

theorem forecastYears_pairwise (lastY : Int) (n : Nat) :
    List.Pairwise (· < ·) (forecastYears lastY n) := by
  unfold forecastYears
  apply List.Pairwise.map _ ?_ (List.pairwise_lt_range n)
  intro a b hab
  have hi : (a : Int) < b := by exact_mod_cast hab
  omega

theorem forecastYears_nodup (lastY : Int) (n : Nat) :
    (forecastYears lastY n).Nodup :=
  (forecastYears_pairwise lastY n).imp (fun h => ne_of_lt h)

theorem forecastYears_head (lastY : Int) (n : Nat) (h : 0 < n) :
    (forecastYears lastY n).head? = some (lastY + 1) := by
  cases n with
  | zero => omega
  | succ m =>
    unfold forecastYears
    rw [List.range_succ_eq_map]
    simp

/-! The claim theorems. -/

/-- Claim C9: re-running the pipeline with identical uploads and identical
configuration (and the same deterministic library fitting functions)
produces identical output; the run takes no other input, carries no state
between runs, and uses no randomness. -/
theorem c9_deterministic_rerun (fitG : GdpFitter) (fitC : CpihFitter)
    (cl1 cl2 gl1 gl2 : List Row) (cfg1 cfg2 : Config)
    (hc : cl1 = cl2) (hg : gl1 = gl2) (hcfg : cfg1 = cfg2) :
    runPipeline fitG fitC cl1 gl1 cfg1 = runPipeline fitG fitC cl2 gl2 cfg2 := by
  subst hc
  subst hg
  subst hcfg
  rfl

/-- Witness for C9 at a concrete successful run. -/
theorem c9_deterministic_rerun_witness :
    runPipeline okFitG okFitC cpihLinesEx gdpLinesEx cfgEx =
      runPipeline okFitG okFitC cpihLinesEx gdpLinesEx cfgEx :=
  c9_deterministic_rerun okFitG okFitC cpihLinesEx cpihLinesEx gdpLinesEx
    gdpLinesEx cfgEx cfgEx rfl rfl rfl

/-- Claim C10: when either upload is missing, the pipeline body behind
`if cpih_file and gdp_file:` does not run at all -- no chart, no table and
no error message is emitted. -/
theorem c10_no_output_without_both_files (fitG : GdpFitter) (fitC : CpihFitter)
    (cpihFile gdpFile : Option (List Row)) (cfg : Config)
    (h : cpihFile = none ∨ gdpFile = none) :
    appOutputs fitG fitC cpihFile gdpFile cfg = [] := by
  rcases h with rfl | rfl
  · cases gdpFile <;> rfl
  · cases cpihFile <;> rfl

/-- Witness for C10: only the GDP file is uploaded. -/
theorem c10_no_output_without_both_files_witness :
    appOutputs okFitG okFitC none (some gdpLinesEx) cfgEx = [] :=
  c10_no_output_without_both_files okFitG okFitC none (some gdpLinesEx) cfgEx
    (Or.inl rfl)

/-- Claim C6: for every forecast step, the lower bound of the Gaussian 95%
interval is at most the point forecast, which is at most the upper bound,
whenever the forecast standard errors are nonnegative. -/
theorem c6_interval_ordering (means ses : List Rat) (h : ∀ s ∈ ses, 0 ≤ s) :
    ∀ m s, (m, s) ∈ means.zip ses →
      (confInt95 m s).1 ≤ m ∧ m ≤ (confInt95 m s).2 := by
  intro m s hms
  have hs : (0 : Rat) ≤ s := h s (List.of_mem_zip hms).2
  have hz : (0 : Rat) ≤ z95 * s := mul_nonneg (by norm_num [z95]) hs
  unfold confInt95
  constructor
  · show m - z95 * s ≤ m
    linarith
  · show m ≤ m + z95 * s
    linarith

/-- Witness for C6 at concrete forecasts and standard errors. -/
theorem c6_interval_ordering_witness :
    (confInt95 2 1).1 ≤ 2 ∧ (2 : Rat) ≤ (confInt95 2 1).2 :=
  c6_interval_ordering [2, 3] [1, 1 / 2] (by norm_num) 2 1 (by norm_num)

/-- Claim C5: a successful forecast block on an aligned table with last
historical year Y and horizon N yields years exactly
`[Y+1, ..., Y+N]` -- length N, first element Y+1, each element one more
than the previous (contiguous, no gaps), strictly ascending, no
duplicates -- and the forecast table pairs each year with exactly one
(forecast, lower, upper) triple when the fitter outputs have length N. -/
theorem c5_forecast_years_contiguous (fitG : GdpFitter) (fitC : CpihFitter)
    (df : AlignedTable) (cfg : Config) (lastY : Int)
    (years : List Int) (fc lo hi : List Rat)
    (hok : forecastBlock fitG fitC df cfg = .ok (years, fc, lo, hi))
    (hY : (df.map Prod.fst).getLast? = some lastY) :
    years = forecastYears lastY cfg.nYears ∧
    years.length = cfg.nYears ∧
    (0 < cfg.nYears → years.head? = some (lastY + 1)) ∧
    List.Chain' (fun a b => b = a + 1) years ∧
    List.Pairwise (· < ·) years ∧
    years.Nodup ∧
    (fc.length = cfg.nYears → lo.length = cfg.nYears → hi.length = cfg.nYears →
      (mkForecastTable years fc lo hi).map Prod.fst = years ∧
      (mkForecastTable years fc lo hi).length = cfg.nYears) := by
  unfold forecastBlock at hok
  cases h1 : fitG (df.map (fun r => r.2.2)) (cfg.pg, cfg.dg, cfg.qg) cfg.nYears with
  | error e => rw [h1] at hok; simp at hok
  | ok gdpFc =>
    rw [h1] at hok
    dsimp only at hok
    cases h2 : fitC (df.map (fun r => r.2.1)) (df.map (fun r => r.2.2))
        (cfg.p, cfg.d, cfg.q) cfg.nYears gdpFc with
    | error e => rw [h2] at hok; simp at hok
    | ok x =>
      obtain ⟨fc2, lo2, hi2⟩ := x
      rw [h2] at hok
      dsimp only at hok
      cases h3 : (df.map Prod.fst).getLast? with
      | none => rw [h3] at hok; simp at hok
      | some ly =>
        rw [h3] at hok
        dsimp only at hok
        rw [h3] at hY
        have hly : ly = lastY := by
          simpa using hY
        subst hly
        simp only [Except.ok.injEq, Prod.mk.injEq] at hok
        obtain ⟨hyrs, hfc, hlo, hhi⟩ := hok
        subst hyrs
        subst hfc
        subst hlo
        subst hhi
        refine ⟨rfl, forecastYears_length ly cfg.nYears, ?_, forecastYears_chain ly cfg.nYears,
          forecastYears_pairwise ly cfg.nYears, forecastYears_nodup ly cfg.nYears, ?_⟩
        · intro hn
          exact forecastYears_head ly cfg.nYears hn
        · intro hlf hll hlh
          constructor
          · apply List.map_fst_zip
            rw [List.length_zip, List.length_zip, hlf, hll, hlh, forecastYears_length]
            simp
          · unfold mkForecastTable
            rw [List.length_zip, List.length_zip, List.length_zip, hlf, hll, hlh,
              forecastYears_length]
            simp

/-- Witness for C5: the default run on the example uploads (last year
2016, horizon 5) gives years 2017-2021. -/
theorem c5_forecast_years_contiguous_witness :
    forecastYears 2016 5 = [2017, 2018, 2019, 2020, 2021] ∧
    List.Chain' (fun a b => b = a + 1) (forecastYears 2016 5) :=
  ⟨by decide,
    (c5_forecast_years_contiguous okFitG okFitC dfEx cfgEx 2016
      (forecastYears 2016 5) (List.replicate 5 0) (List.replicate 5 (-2))
      (List.replicate 5 2) (by decide) (by decide)).2.2.2.1⟩

/-- Counterexample to claim C1 as stated: on the example uploads with a
GDP fitting failure, the run renders the historical chart (line 35, which
executes before the fitting stage) and then shows the error message, so a
chart is rendered alongside the error. -/
theorem c1_partial_chart_counterexample :
    runPipeline failFitG okFitC cpihLinesEx gdpLinesEx cfgEx =
      [Output.histChart dfEx, Output.errorMsg "fit failed to converge"] ∧
    Output.histChart dfEx ∈ runPipeline failFitG okFitC cpihLinesEx gdpLinesEx cfgEx ∧
    Output.errorMsg "fit failed to converge" ∈
      runPipeline failFitG okFitC cpihLinesEx gdpLinesEx cfgEx := by
  decide

/-- Claim C1 (amended): whenever a run displays the error message, the
forecast chart and forecast table are both withheld and the error display
is the last output; but the historical chart is not withheld -- it is
rendered before the failure whenever loading and alignment already
succeeded. -/
theorem c1_failure_withholds_forecast_outputs (fitG : GdpFitter) (fitC : CpihFitter)
    (cpihLines gdpLines : List Row) (cfg : Config) (e : String)
    (h : Output.errorMsg e ∈ runPipeline fitG fitC cpihLines gdpLines cfg) :
    (∀ o ∈ runPipeline fitG fitC cpihLines gdpLines cfg, isForecastRender o = false) ∧
    (runPipeline fitG fitC cpihLines gdpLines cfg).getLast? =
      some (Output.errorMsg e) := by
  cases h1 : loadCPIH cpihLines with
  | error e1 =>
    have hrun : runPipeline fitG fitC cpihLines gdpLines cfg = [.errorMsg e1] := by
      simp only [runPipeline, h1]
    rw [hrun] at h ⊢
    simp only [List.mem_singleton, Output.errorMsg.injEq] at h
    subst h
    exact ⟨by intro o ho; simp at ho; subst ho; rfl, rfl⟩
  | ok dfC =>
    cases h2 : loadGDP gdpLines with
    | error e1 =>
      have hrun : runPipeline fitG fitC cpihLines gdpLines cfg = [.errorMsg e1] := by
        simp only [runPipeline, h1, h2]
      rw [hrun] at h ⊢
      simp only [List.mem_singleton, Output.errorMsg.injEq] at h
      subst h
      exact ⟨by intro o ho; simp at ho; subst ho; rfl, rfl⟩
    | ok dfG =>
      cases h3 : forecastBlock fitG fitC (innerJoin dfC dfG) cfg with
      | error e1 =>
        have hrun : runPipeline fitG fitC cpihLines gdpLines cfg =
            [.histChart (innerJoin dfC dfG), .errorMsg e1] := by
          simp only [runPipeline, h1, h2, h3]
        rw [hrun] at h ⊢
        simp only [List.mem_cons, List.mem_singleton, Output.errorMsg.injEq,
          List.not_mem_nil, or_false] at h
        rcases h with h | h
        · cases h
        · subst h
          refine ⟨?_, rfl⟩
          intro o ho
          rcases List.mem_cons.mp ho with rfl | ho
          · rfl
          · rcases List.mem_singleton.mp ho with rfl
            rfl
      | ok x =>
        obtain ⟨years, fc, lo, hi⟩ := x
        have hrun : runPipeline fitG fitC cpihLines gdpLines cfg =
            [.histChart (innerJoin dfC dfG),
             .forecastChart ((innerJoin dfC dfG).map Prod.fst)
               ((innerJoin dfC dfG).map (fun r => r.2.1)) years fc lo hi,
             .forecastTable (mkForecastTable years fc lo hi)] := by
          simp only [runPipeline, h1, h2, h3]
        rw [hrun] at h
        simp at h

/-- Witness for C1 (amended) at the concrete failing run. -/
theorem c1_failure_withholds_forecast_outputs_witness :
    (∀ o ∈ runPipeline failFitG okFitC cpihLinesEx gdpLinesEx cfgEx,
      isForecastRender o = false) ∧
    (runPipeline failFitG okFitC cpihLinesEx gdpLinesEx cfgEx).getLast? =
      some (Output.errorMsg "fit failed to converge") :=
  c1_failure_withholds_forecast_outputs failFitG okFitC cpihLinesEx gdpLinesEx
    cfgEx "fit failed to converge" (by decide)

/-- Counterexample to claim C7 as stated: with disjoint year sets (CPIH
2000, GDP 2010) the run fails, but it still renders one chart -- the
historical chart of the empty aligned table (line 35 runs before anything
can fail on the empty table). -/
theorem c7_empty_overlap_counterexample :
    runPipeline okFitG okFitC cpihDisjointEx gdpDisjointEx cfgEx =
      [Output.histChart [], Output.errorMsg "index -1 is out of bounds"] ∧
    Output.histChart [] ∈ runPipeline okFitG okFitC cpihDisjointEx gdpDisjointEx cfgEx := by
  decide

/-- Claim C7 (amended): when both sources load but share no year (empty
inner join), the run fails with a descriptive message -- exactly one error
display -- and renders neither the forecast chart nor the forecast table;
the historical chart of the empty aligned table is still emitted first. -/
theorem c7_empty_overlap_failure (fitG : GdpFitter) (fitC : CpihFitter)
    (cpihLines gdpLines : List Row) (cfg : Config) (t1 t2 : SourceTable)
    (h1 : loadCPIH cpihLines = .ok t1) (h2 : loadGDP gdpLines = .ok t2)
    (hj : innerJoin t1 t2 = []) :
    (runPipeline fitG fitC cpihLines gdpLines cfg).head? =
      some (Output.histChart []) ∧
    (runPipeline fitG fitC cpihLines gdpLines cfg).countP isErrorOutput = 1 ∧
    (∀ o ∈ runPipeline fitG fitC cpihLines gdpLines cfg,
      isForecastRender o = false) := by
  cases h3 : forecastBlock fitG fitC (innerJoin t1 t2) cfg with
  | error e1 =>
    have hrun : runPipeline fitG fitC cpihLines gdpLines cfg =
        [.histChart (innerJoin t1 t2), .errorMsg e1] := by
      simp only [runPipeline, h1, h2, h3]
    rw [hrun, hj]
    refine ⟨rfl, rfl, ?_⟩
    intro o ho
    rcases List.mem_cons.mp ho with rfl | ho
    · rfl
    · rcases List.mem_singleton.mp ho with rfl
      rfl
  | ok x =>
    obtain ⟨years, fc, lo, hi⟩ := x
    exfalso
    rw [hj] at h3
    unfold forecastBlock at h3
    cases h4 : fitG (([] : AlignedTable).map (fun r => r.2.2))
        (cfg.pg, cfg.dg, cfg.qg) cfg.nYears with
    | error e => rw [h4] at h3; simp at h3
    | ok gdpFc =>
      rw [h4] at h3
      dsimp only at h3
      cases h5 : fitC (([] : AlignedTable).map (fun r => r.2.1))
          (([] : AlignedTable).map (fun r => r.2.2))
          (cfg.p, cfg.d, cfg.q) cfg.nYears gdpFc with
      | error e => rw [h5] at h3; simp at h3
      | ok y =>
        obtain ⟨fc2, lo2, hi2⟩ := y
        rw [h5] at h3
        simp at h3

/-- Witness for C7 (amended) at the concrete disjoint uploads. -/
theorem c7_empty_overlap_failure_witness :
    (runPipeline okFitG okFitC cpihDisjointEx gdpDisjointEx cfgEx).head? =
      some (Output.histChart []) ∧
    (runPipeline okFitG okFitC cpihDisjointEx gdpDisjointEx cfgEx).countP
      isErrorOutput = 1 ∧
    (∀ o ∈ runPipeline okFitG okFitC cpihDisjointEx gdpDisjointEx cfgEx,
      isForecastRender o = false) :=
  c7_empty_overlap_failure okFitG okFitC cpihDisjointEx gdpDisjointEx cfgEx
    [(2000, 2)] [(2010, 1)] (by decide) (by decide) (by decide)

/-- Claim C8: the run is total -- it always produces an output list, never
an escaped exception -- with at most one error display; whenever any stage
fails (loading, alignment via the empty-table read, or either fitting
call, for any fitter behaviour including invalid orders), the run shows
exactly one error message, as its last output; a failure-free run shows
none. -/
theorem c8_failures_caught_single_message (fitG : GdpFitter) (fitC : CpihFitter)
    (cpihLines gdpLines : List Row) (cfg : Config) :
    runPipeline fitG fitC cpihLines gdpLines cfg ≠ [] ∧
    (runPipeline fitG fitC cpihLines gdpLines cfg).countP isErrorOutput ≤ 1 ∧
    (∀ e, runFailure fitG fitC cpihLines gdpLines cfg = some e →
      (runPipeline fitG fitC cpihLines gdpLines cfg).getLast? =
        some (Output.errorMsg e) ∧
      (runPipeline fitG fitC cpihLines gdpLines cfg).countP isErrorOutput = 1) ∧
    (runFailure fitG fitC cpihLines gdpLines cfg = none →
      (runPipeline fitG fitC cpihLines gdpLines cfg).countP isErrorOutput = 0) := by
  cases h1 : loadCPIH cpihLines with
  | error e1 =>
    have hrun : runPipeline fitG fitC cpihLines gdpLines cfg = [.errorMsg e1] := by
      simp only [runPipeline, h1]
    have hfail : runFailure fitG fitC cpihLines gdpLines cfg = some e1 := by
      simp only [runFailure, h1]
    rw [hrun, hfail]
    refine ⟨by simp, by simp [isErrorOutput], ?_, by simp⟩
    intro e he
    rcases Option.some.injEq e1 e ▸ he with rfl
    exact ⟨rfl, by simp [isErrorOutput]⟩
  | ok dfC =>
    cases h2 : loadGDP gdpLines with
    | error e1 =>
      have hrun : runPipeline fitG fitC cpihLines gdpLines cfg = [.errorMsg e1] := by
        simp only [runPipeline, h1, h2]
      have hfail : runFailure fitG fitC cpihLines gdpLines cfg = some e1 := by
        simp only [runFailure, h1, h2]
      rw [hrun, hfail]
      refine ⟨by simp, by simp [isErrorOutput], ?_, by simp⟩
      intro e he
      rcases Option.some.injEq e1 e ▸ he with rfl
      exact ⟨rfl, by simp [isErrorOutput]⟩
    | ok dfG =>
      cases h3 : forecastBlock fitG fitC (innerJoin dfC dfG) cfg with
      | error e1 =>
        have hrun : runPipeline fitG fitC cpihLines gdpLines cfg =
            [.histChart (innerJoin dfC dfG), .errorMsg e1] := by
          simp only [runPipeline, h1, h2, h3]
        have hfail : runFailure fitG fitC cpihLines gdpLines cfg = some e1 := by
          simp only [runFailure, h1, h2, h3]
        rw [hrun, hfail]
        refine ⟨by simp, by simp [isErrorOutput], ?_, by simp⟩
        intro e he
        rcases Option.some.injEq e1 e ▸ he with rfl
        exact ⟨rfl, by simp [isErrorOutput]⟩
      | ok x =>
        obtain ⟨years, fc, lo, hi⟩ := x
        have hrun : runPipeline fitG fitC cpihLines gdpLines cfg =
            [.histChart (innerJoin dfC dfG),
             .forecastChart ((innerJoin dfC dfG).map Prod.fst)
               ((innerJoin dfC dfG).map (fun r => r.2.1)) years fc lo hi,
             .forecastTable (mkForecastTable years fc lo hi)] := by
          simp only [runPipeline, h1, h2, h3]
        have hfail : runFailure fitG fitC cpihLines gdpLines cfg = none := by
          simp only [runFailure, h1, h2, h3]
        rw [hrun, hfail]
        refine ⟨by simp, by simp [isErrorOutput], ?_, by simp [isErrorOutput]⟩
        intro e he
        cases he

/-- Witness for C8: the scenario of requesting CPIH differencing order
d = 2 on an aligned series of only 2 observations, with a fitter that
raises for that reason; the failure is converted into a single error
display, shown last. -/
theorem c8_failures_caught_single_message_witness :
    (runPipeline okFitG d2FailFitC cpihTwoObsEx gdpLinesEx cfgD2).getLast? =
      some (Output.errorMsg "differencing order exceeds series length") ∧
    (runPipeline okFitG d2FailFitC cpihTwoObsEx gdpLinesEx cfgD2).countP
      isErrorOutput = 1 :=
  (c8_failures_caught_single_message okFitG d2FailFitC cpihTwoObsEx gdpLinesEx
    cfgD2).2.2.1 "differencing order exceeds series length" (by decide)

/-- Claim C2: for well-formed inputs -- both loaders succeed and neither
loaded source has a duplicate year -- the aligned index is exactly the
overlapping year set (a year is in the join exactly when it is in both
sources), strictly ascending, with no duplicate years. -/
theorem c2_aligned_index_is_overlap (cpihLines gdpLines : List Row)
    (t1 t2 : SourceTable)
    (h1 : loadCPIH cpihLines = .ok t1) (h2 : loadGDP gdpLines = .ok t2)
    (n1 : (t1.map Prod.fst).Nodup) (n2 : (t2.map Prod.fst).Nodup) :
    (∀ y : Int, y ∈ (innerJoin t1 t2).map Prod.fst ↔
      y ∈ t1.map Prod.fst ∧ y ∈ t2.map Prod.fst) ∧
    ((innerJoin t1 t2).map Prod.fst).Pairwise (· < ·) ∧
    ((innerJoin t1 t2).map Prod.fst).Nodup := by
  have hs1 : t1.Pairwise (fun a b => a.1 ≤ b.1) := loadCPIH_ok_pairwise h1
  have hkeysle : (t1.map Prod.fst).Pairwise (· ≤ ·) :=
    List.Pairwise.map Prod.fst (fun a b hab => hab) hs1
  have hkeyslt : (t1.map Prod.fst).Pairwise (· < ·) :=
    (hkeysle.and n1).imp (fun hab => lt_of_le_of_ne hab.1 hab.2)
  have hsub : ((innerJoin t1 t2).map Prod.fst).Sublist (t1.map Prod.fst) :=
    @innerJoin_keys_sublist t1 t2 n2
  refine ⟨fun y => innerJoin_keys_mem, List.Pairwise.sublist hsub hkeyslt, ?_⟩
  exact (List.Pairwise.sublist hsub hkeyslt).imp (fun h => ne_of_lt h)

/-- Witness for C2 at the example uploads (overlap 2015-2016). -/
theorem c2_aligned_index_is_overlap_witness :
    ((innerJoin cpihTblEx gdpTblEx).map Prod.fst).Pairwise (· < ·) ∧
    ((innerJoin cpihTblEx gdpTblEx).map Prod.fst).Nodup ∧
    (2015 ∈ (innerJoin cpihTblEx gdpTblEx).map Prod.fst ↔
      2015 ∈ cpihTblEx.map Prod.fst ∧ 2015 ∈ gdpTblEx.map Prod.fst) := by
  have h := c2_aligned_index_is_overlap cpihLinesEx gdpLinesEx cpihTblEx gdpTblEx
    (by decide) (by decide) (by decide) (by decide)
  exact ⟨h.2.1, h.2.2, h.1 2015⟩

/-- Counterexample to claim C3 as stated: a GDP upload with a trailing
non-numeric footnote row makes the whole load fail (the `astype(int)` of
line 27 raises) -- the row is not dropped and no aligned table results --
while the same upload without that row loads fine. -/
theorem c3_gdp_year_drop_counterexample :
    loadGDP gdpBadLines = .error "invalid literal for int" ∧
    loadGDP gdpCleanLines = .ok [(2020, 2)] := by
  decide

/-- Claim C3 (amended): in the GDP source only value-coercion failures are
dropped.  When every data row's year cell is an integer numeral the load
succeeds and retains exactly the rows whose value coerces; but any row
whose year cell is not an integer numeral aborts the whole load with an
error instead of being dropped. -/
theorem c3_gdp_drop_policy (lines : List Row) :
    ((∀ r ∈ gdpData lines, ∃ n : Int, r.1 = Cell.intVal n) →
      ∃ t, loadGDP lines = .ok t ∧
        ∀ (y : Int) (v : Rat), ((y, v) ∈ t ↔
          ∃ r ∈ gdpData lines, r.1 = Cell.intVal y ∧ toNumeric r.2 = some v)) ∧
    ((∃ r ∈ gdpData lines, ∀ n : Int, r.1 ≠ Cell.intVal n) →
      ∃ e, loadGDP lines = .error e) := by
  constructor
  · intro hall
    have hcells : ∀ c ∈ (gdpData lines).map Prod.fst, (cellInt c).isSome := by
      intro c hc
      rcases List.mem_map.mp hc with ⟨r, hr, rfl⟩
      rcases hall r hr with ⟨n, hn⟩
      rw [hn]
      rfl
    have hA := astypeInt_all_ok hcells
    refine ⟨_, by unfold loadGDP; rw [hA], ?_⟩
    intro y v
    rw [List.map_map, mem_buildTable_maps]
    constructor
    · rintro ⟨r, hr, hy, hv⟩
      rcases hall r hr with ⟨n, hn⟩
      refine ⟨r, hr, ?_, hv⟩
      simp only [Function.comp_apply] at hy
      rw [hn] at hy
      simp only [cellInt, Option.getD_some] at hy
      rw [hn, hy]
    · rintro ⟨r, hr, hy, hv⟩
      refine ⟨r, hr, ?_, hv⟩
      simp only [Function.comp_apply]
      rw [hy]
      rfl
  · rintro ⟨r, hr, hne⟩
    have hnone : cellInt r.1 = none := by
      cases hcell : r.1 with
      | intVal n => exact absurd hcell (hne n)
      | floatVal q => rfl
      | text s => rfl
    rcases astypeInt_has_error ⟨r.1, List.mem_map.mpr ⟨r, hr, rfl⟩, hnone⟩ with ⟨e, he⟩
    refine ⟨e, ?_⟩
    unfold loadGDP
    rw [he]

/-- Witness for C3 (amended): the clean GDP upload loads successfully. -/
theorem c3_gdp_drop_policy_witness : (loadGDP gdpCleanLines).isOk = true := by
  have hall : ∀ r ∈ gdpData gdpCleanLines, ∃ n : Int, r.1 = Cell.intVal n := by
    intro r hr
    have hd : gdpData gdpCleanLines = [(Cell.intVal 2020, Cell.intVal 2)] := by decide
    rw [hd] at hr
    rcases List.mem_singleton.mp hr with rfl
    exact ⟨2020, rfl⟩
  rcases (c3_gdp_drop_policy gdpCleanLines).1 hall with ⟨t, ht, _⟩
  rw [ht]
  rfl

/-- Counterexample to claim C4 as stated: a CPIH upload with a year cell
"2020.5" (numeric but not an integer numeral, here 4041/2).  The filter of
line 19 retains the row -- it coerces to a number, so it is not
discarded -- and then `astype(int)` on line 20 raises, failing the whole
load instead of discarding the row. -/
theorem c4_cpih_year_drop_counterexample :
    loadCPIH cpihBadLines = .error "invalid literal for int" ∧
    (cpihData cpihBadLines).map Prod.fst =
      [Cell.intVal 2019, Cell.floatVal (mkRat 4041 2)] := by
  decide

/-- Claim C4 (amended): after the header skip, rows whose year cell is not
numeric are silently discarded by the filter of line 19.  If additionally
every retained year cell is an integer numeral, the load succeeds and
keeps exactly the rows with integer year and coercible value (value
failures dropped); but a retained year cell that is numeric without being
an integer numeral makes the whole load fail with an error. -/
theorem c4_cpih_drop_policy (lines : List Row) :
    ((∀ r ∈ cpihData lines, ∃ n : Int, r.1 = Cell.intVal n) →
      ∃ t, loadCPIH lines = .ok t ∧
        ∀ (y : Int) (v : Rat), ((y, v) ∈ t ↔
          ∃ r ∈ lines.drop 7, r.1 = Cell.intVal y ∧ toNumeric r.2 = some v)) ∧
    ((∃ r ∈ cpihData lines, ∀ n : Int, r.1 ≠ Cell.intVal n) →
      ∃ e, loadCPIH lines = .error e) := by
  constructor
  · intro hall
    have hcells : ∀ c ∈ (cpihData lines).map Prod.fst, (cellInt c).isSome := by
      intro c hc
      rcases List.mem_map.mp hc with ⟨r, hr, rfl⟩
      rcases hall r hr with ⟨n, hn⟩
      rw [hn]
      rfl
    have hA := astypeInt_all_ok hcells
    refine ⟨_, by unfold loadCPIH; rw [hA], ?_⟩
    intro y v
    rw [List.map_map, mem_buildTable_maps]
    constructor
    · rintro ⟨r, hr, hy, hv⟩
      rcases hall r hr with ⟨n, hn⟩
      refine ⟨r, (List.mem_filter.mp hr).1, ?_, hv⟩
      simp only [Function.comp_apply] at hy
      rw [hn] at hy
      simp only [cellInt, Option.getD_some] at hy
      rw [hn, hy]
    · rintro ⟨r, hr, hy, hv⟩
      have hkept : r ∈ cpihData lines := by
        unfold cpihData
        refine List.mem_filter.mpr ⟨hr, ?_⟩
        rw [hy]
        rfl
      refine ⟨r, hkept, ?_, hv⟩
      simp only [Function.comp_apply]
      rw [hy]
      rfl
  · rintro ⟨r, hr, hne⟩
    have hnone : cellInt r.1 = none := by
      cases hcell : r.1 with
      | intVal n => exact absurd hcell (hne n)
      | floatVal q => rfl
      | text s => rfl
    rcases astypeInt_has_error ⟨r.1, List.mem_map.mpr ⟨r, hr, rfl⟩, hnone⟩ with ⟨e, he⟩
    refine ⟨e, ?_⟩
    unfold loadCPIH
    rw [he]

/-- Witness for C4 (amended): the example CPIH upload (with its discarded
footnote row) loads successfully. -/
theorem c4_cpih_drop_policy_witness : (loadCPIH cpihLinesEx).isOk = true := by
  have hall : ∀ r ∈ cpihData cpihLinesEx, ∃ n : Int, r.1 = Cell.intVal n := by
    intro r hr
    have hd : cpihData cpihLinesEx =
        [(Cell.intVal 2015, Cell.intVal 2), (Cell.intVal 2016, Cell.intVal 3)] := by
      decide
    rw [hd] at hr
    rcases List.mem_cons.mp hr with rfl | hr
    · exact ⟨2015, rfl⟩
    · rcases List.mem_singleton.mp hr with rfl
      exact ⟨2016, rfl⟩
  rcases (c4_cpih_drop_policy cpihLinesEx).1 hall with ⟨t, ht, _⟩
  rw [ht]
  rfl

end UKInflation
